import Mathlib

/-!
Shallow embedding of the volume-control core of `motu-tools` (`src/main.go`).

The core consists of:
- the static device-descriptor table (`devices`),
- the mute toggle logic (`Mute`),
- the volume-stepping engine (`newVolumeLinear`, `newVolumeLog`) and its
  dispatcher (`IncDec`).

Float64 arithmetic is modelled exactly: the linear engine and the mute logic
only use field operations, ceiling and comparisons, so they are embedded over
`ℚ` (and, polymorphically, any linear ordered field with a floor structure);
the logarithmic engine needs `log`, `sqrt` and real exponentiation, so it is
embedded over `ℝ`.

Error/abort semantics: functions that in Go either return an error before any
HTTP write or `panic` are embedded with `Option`; `none` means the operation
aborted with no value ever written, `some v` means the value `v` is the one
passed to the HTTP `patch` call.
-/

namespace Motu

/-- Number of steps between min and max (`volumeDenominations = 16` in the source). -/
def volumeDenominations : ℕ := 16

/-- Scale-type tag for linear devices (`scaleLinear = "linear"`). -/
def scaleLinear : String := "linear"

/-- Scale-type tag for logarithmic devices (`scaleLog = "log"`). -/
def scaleLog : String := "log"

/-- Device descriptor (struct `Device` in the source), with numeric fields over a
parameter type `α` (`ℚ` for the exact embedding, `ℝ` where real analysis is needed). -/
structure Device (α : Type) where
  Property : String
  MuteProperty : String
  Scale : String
  Max : α
  Min : α
  ZeroVolume : α

/-- The `"main"` entry of the `devices` table. -/
def mainD : Device ℚ :=
  { Property := "datastore/ext/obank/1/ch/0/stereoTrim"
    MuteProperty := "datastore/mix/main/0/matrix/mute"
    Scale := scaleLinear
    Max := 0
    Min := -50
    ZeroVolume := -127 }

/-- The `"computer"` entry of the `devices` table. -/
def computerD : Device ℚ :=
  { Property := "datastore/mix/chan/10/matrix/fader"
    MuteProperty := "datastore/mix/chan/10/matrix/mute"
    Scale := scaleLog
    Max := 0
    Min := -64
    ZeroVolume := 0 }

/-- The device-descriptor table (`var devices = map[string]*Device{...}`). -/
def devices : String → Option (Device ℚ) := fun name =>
  if name = "main" then some mainD
  else if name = "computer" then some computerD
  else none

/-- Cast a rational-valued descriptor to a real-valued one. -/
def Device.toReal (d : Device ℚ) : Device ℝ :=
  { Property := d.Property
    MuteProperty := d.MuteProperty
    Scale := d.Scale
    Max := (d.Max : ℝ)
    Min := (d.Min : ℝ)
    ZeroVolume := (d.ZeroVolume : ℝ) }

/-- Rounding up to the nearest whole unit (`math.Ceil`), returned in the same field. -/
def mathCeil {α : Type} [LinearOrderedRing α] [FloorRing α] (x : α) : α := (⌈x⌉ : ℤ)

/-- Mute toggle logic, body of `MotuClient.Mute` between the `get` and the `patch`:
`newValue` starts at `0`; `case 0:` sets it to `1`; `case 1:` leaves it at `0`;
`default:` returns an `unexpected current mute value` error before any write.
`some v` is the value written to the mute property; `none` means the error
return (no write happens). -/
def Mute (current : ℚ) : Option ℚ :=
  if current = 0 then some 1
  else if current = 1 then some 0
  else none

/-- Volume stepping for linear-scale devices (`newVolumeLinear`). -/
def newVolumeLinear {α : Type} [LinearOrderedField α] [FloorRing α]
    (d : Device α) (current : α) (inc : Bool) : α :=
  let delta := (d.Max - d.Min) / (volumeDenominations : α)
  let newVolume := if inc then mathCeil current + delta else mathCeil current - delta
  -- Go straight to mute once we reach min volume
  if inc = false ∧ newVolume ≤ d.Min then d.ZeroVolume
  -- Keep the volume within the bounds
  else min (max newVolume d.Min) d.Max

/-- Amplitude-ratio-to-decibel conversion used by `newVolumeLog`:
`currentDB := 10 * math.Log10(math.Pow(current, 2))`. -/
noncomputable def toDB (current : ℝ) : ℝ := 10 * Real.logb 10 (current ^ 2)

/-- Decibel-to-amplitude-ratio conversion used by `newVolumeLog`:
`math.Sqrt(math.Pow(10, newDB/10))`. -/
noncomputable def fromDB (dB : ℝ) : ℝ := Real.sqrt ((10 : ℝ) ^ (dB / 10))

/-- Volume stepping for logarithmic-scale devices (`newVolumeLog`).
The `panic("logarithmic zero volume should be zero")` is embedded as `none`
(the computation aborts, nothing is returned or written). -/
noncomputable def newVolumeLog (d : Device ℝ) (current : ℝ) (inc : Bool) : Option ℝ :=
  let currentDB := toDB current
  let delta := (d.Max - d.Min) / (volumeDenominations : ℝ)
  let newDB := if inc then mathCeil currentDB + delta else mathCeil currentDB - delta
  -- Go straight to mute once we reach min volume
  if inc = false ∧ newDB ≤ d.Min then
    if d.ZeroVolume ≠ 0 then none else some d.ZeroVolume
  else
    -- Keep the volume within the bounds
    let newDB2 := min (max newDB d.Min) d.Max
    -- Convert back to amplitude ratio and bound to [0, 1]
    let newAmp := fromDB newDB2
    some (min (max newAmp 0) 1)

/-- Scale dispatch of `MotuClient.IncDec` between the `get` and the `patch`:
`case scaleLinear` and `case scaleLog` compute the value to write; the
`default:` branch is `panic("unknown scale")`, embedded as `none` (abort,
nothing computed or written). -/
noncomputable def IncDec (d : Device ℝ) (current : ℝ) (inc : Bool) : Option ℝ :=
  if d.Scale = scaleLinear then some (newVolumeLinear d current inc)
  else if d.Scale = scaleLog then newVolumeLog d current inc
  else none

/-! ## Helper lemmas -/

/-- Evaluation rule for `mathCeil` at a value lying in `(n-1, n]`. -/
theorem mathCeil_eq {α : Type} [LinearOrderedRing α] [FloorRing α] (x : α) (n : ℤ)
    (h1 : (n : α) - 1 < x) (h2 : x ≤ (n : α)) : mathCeil x = (n : α) := by
  unfold mathCeil
  rw [Int.ceil_eq_iff.mpr ⟨h1, h2⟩]

/-- Converting the amplitude ratio `1` gives `0` dB. -/
theorem toDB_one : toDB 1 = 0 := by
  simp [toDB]

/-- Converting `0` dB back gives the amplitude ratio `1`. -/
theorem fromDB_zero : fromDB 0 = 1 := by
  simp [fromDB]

/-- Ceiling of `0`. -/
theorem mathCeil_zero : mathCeil (0 : ℝ) = 0 := by
  simp [mathCeil]

/-! ## Claims -/

/-- C1, counterexample: the claim says that when the current mute value is `1`
the `Mute` operation writes `1` back; in fact at current value `1` the code
writes `0` (because `newValue` is initialised to `0` and `case 1:` leaves it
unchanged). -/
theorem mute_on_muted_writes_zero_cex : Mute 1 ≠ some 1 := by
  simp [Mute]

/-- C1, amended: the `Mute` operation writes `1` when the current mute value is
`0`, and writes `0` (i.e. unmutes) when the current value is `1`; the value
written is `1` only when the current value is `0`. -/
theorem mute_writes : Mute 0 = some 1 ∧ Mute 1 = some 0 := by
  constructor <;> simp [Mute]

/-- C6: for any current mute value that is neither `0` nor `1`, `Mute` aborts
with the unexpected-state error and performs no write. -/
theorem mute_unexpected_value_no_write (c : ℚ) (h0 : c ≠ 0) (h1 : c ≠ 1) :
    Mute c = none := by
  simp [Mute, h0, h1]

/-- Witness for C6 at the spec's example value `0.5`. -/
theorem mute_unexpected_value_no_write_witness : Mute (1/2) = none :=
  mute_unexpected_value_no_write (1/2) (by norm_num) (by norm_num)

/-- C4: for the LINEAR `"main"` device (`min = -50`, `max = 0`), stepping up
from current value `-10` returns exactly `-6.875`. -/
theorem linear_inc_scenario : newVolumeLinear mainD (-10) true = (-6.875 : ℚ) := by
  have hc : mathCeil (-10 : ℚ) = ((-10 : ℤ) : ℚ) := mathCeil_eq _ _ (by norm_num) (by norm_num)
  simp only [newVolumeLinear, mainD, volumeDenominations, hc]
  norm_num [min_def, max_def]

/-- C5: for the LINEAR device of the table (`"main"`) and every raw value `v`
with `min ≤ v ≤ max`, `newVolumeLinear v true` is at least `ceil v` and at
most `max`. -/
theorem linear_inc_bounds (v : ℚ) (h1 : mainD.Min ≤ v) (h2 : v ≤ mainD.Max) :
    mathCeil v ≤ newVolumeLinear mainD v true ∧ newVolumeLinear mainD v true ≤ mainD.Max := by
  have hceil : (⌈v⌉ : ℚ) ≤ 0 := by
    have : (⌈v⌉ : ℤ) ≤ 0 := Int.ceil_le.mpr (by exact_mod_cast h2)
    exact_mod_cast this
  simp only [newVolumeLinear, mainD, volumeDenominations, mathCeil] at *
  norm_num
  exact_mod_cast hceil

/-- Witness for C5 at `v = -10`. -/
theorem linear_inc_bounds_witness :
    mathCeil (-10 : ℚ) ≤ newVolumeLinear mainD (-10) true ∧
      newVolumeLinear mainD (-10) true ≤ mainD.Max :=
  linear_inc_bounds (-10) (by norm_num [mainD]) (by norm_num [mainD])

/-- C10: for every LINEAR descriptor satisfying the spec invariant
`min ≤ max`, and every current value with `ceil(current) + (max-min)/16 ≤ min`
(in particular `current = zeroVolume = -127` for `"main"`), an increase
returns exactly `min`: the zero-snap branch is never taken on increase. -/
theorem linear_inc_from_below_returns_min (d : Device ℚ) (c : ℚ)
    (hmm : d.Min ≤ d.Max)
    (h : mathCeil c + (d.Max - d.Min) / (volumeDenominations : ℚ) ≤ d.Min) :
    newVolumeLinear d c true = d.Min := by
  simp only [newVolumeLinear, Bool.true_eq_false, false_and, if_false, if_true,
    reduceIte]
  rw [max_eq_right h, min_eq_left hmm]

/-- Witness for C10: the `"main"` device at its zero-volume value `-127`. -/
theorem linear_inc_from_below_returns_min_witness :
    newVolumeLinear mainD (-127) true = mainD.Min := by
  have hc : mathCeil (-127 : ℚ) = ((-127 : ℤ) : ℚ) :=
    mathCeil_eq _ _ (by norm_num) (by norm_num)
  exact linear_inc_from_below_returns_min mainD (-127) (by norm_num [mainD])
    (by rw [hc]; norm_num [mainD, volumeDenominations])

/-- C2, counterexample: the claim says every current value within one step
above `min` snaps to `zeroVolume` on decrease; for the LINEAR `"main"` device
(`min = -50`, step `= 3.125`) the value `-46.9` lies in `[min, min + step]`,
yet a decrease returns `ceil(-46.9) - 3.125 = -49.125`, not
`zeroVolume = -127`. -/
theorem dec_within_one_step_cex :
    mainD.Min ≤ (-469/10 : ℚ) ∧
      (-469/10 : ℚ) ≤ mainD.Min + (mainD.Max - mainD.Min) / (volumeDenominations : ℚ) ∧
      newVolumeLinear mainD (-469/10) false ≠ mainD.ZeroVolume := by
  have hc : mathCeil (-469/10 : ℚ) = ((-46 : ℤ) : ℚ) :=
    mathCeil_eq _ _ (by norm_num) (by norm_num)
  refine ⟨by norm_num [mainD], by norm_num [mainD, volumeDenominations], ?_⟩
  simp only [newVolumeLinear, mainD, volumeDenominations, hc]
  norm_num [min_def, max_def]

/-- C2, amended: for both devices of the table, a decrease returns exactly
`zeroVolume` whenever the *ceiling* of the current displayed-scale value
(raw value for the LINEAR device, its decibel conversion for the LOGARITHMIC
one) is at or within one step size above `min`. -/
theorem dec_ceil_within_one_step_snaps :
    (∀ c : ℚ, mathCeil c ≤ mainD.Min + (mainD.Max - mainD.Min) / (volumeDenominations : ℚ) →
      newVolumeLinear mainD c false = mainD.ZeroVolume) ∧
    (∀ c : ℝ, mathCeil (toDB c) ≤
        computerD.toReal.Min +
          (computerD.toReal.Max - computerD.toReal.Min) / (volumeDenominations : ℝ) →
      newVolumeLog computerD.toReal c false = some computerD.toReal.ZeroVolume) := by
  constructor
  · intro c h
    norm_num [mainD, volumeDenominations] at h
    simp only [newVolumeLinear, mainD, volumeDenominations]
    rw [if_pos ⟨trivial, by push_cast at h ⊢; linarith⟩]
  · intro c h
    norm_num [computerD, Device.toReal, volumeDenominations] at h
    simp only [newVolumeLog, computerD, Device.toReal, volumeDenominations]
    rw [if_pos ⟨trivial, by push_cast at h ⊢; linarith⟩]
    norm_num

/-- Witness for C2's amended claim: the `"main"` device at current `-50`
returns `-127`; the `"computer"` device at amplitude ratio `1/1000`
(i.e. `-60` dB) returns `0`. -/
theorem dec_ceil_within_one_step_snaps_witness :
    newVolumeLinear mainD (-50) false = mainD.ZeroVolume ∧
      newVolumeLog computerD.toReal (1/1000) false = some computerD.toReal.ZeroVolume := by
  have hdb : toDB (1/1000) = -60 := by
    have h2 : ((1 : ℝ)/1000) ^ 2 = (10 : ℝ) ^ ((-6 : ℝ)) := by
      rw [show ((-6 : ℝ)) = ((-6 : ℤ) : ℝ) by norm_num, Real.rpow_intCast]
      norm_num
    rw [toDB, h2, Real.logb_rpow (by norm_num) (by norm_num)]
    norm_num
  constructor
  · exact dec_ceil_within_one_step_snaps.1 (-50)
      (by rw [mathCeil_eq (-50 : ℚ) (-50) (by norm_num) (by norm_num)]
          norm_num [mainD, volumeDenominations])
  · exact dec_ceil_within_one_step_snaps.2 (1/1000)
      (by rw [hdb, mathCeil_eq (-60 : ℝ) (-60) (by norm_num) (by norm_num)]
          norm_num [computerD, Device.toReal, volumeDenominations])

/-- C3: for any real-valued descriptor whose `zeroVolume` is not `0`, a
decrease whose stepped decibel value falls to or below `min` hits the
`panic` branch of `newVolumeLog`: the computation aborts (`none`) and in
particular never returns the misconfigured `zeroVolume`. -/
theorem log_nonzero_zero_volume_aborts (d : Device ℝ) (c : ℝ)
    (h0 : d.ZeroVolume ≠ 0)
    (hsnap : mathCeil (toDB c) - (d.Max - d.Min) / (volumeDenominations : ℝ) ≤ d.Min) :
    newVolumeLog d c false = none := by
  simp only [newVolumeLog]
  rw [if_pos ⟨trivial, hsnap⟩, if_pos h0]

/-- Witness for C3: a LOGARITHMIC descriptor with `zeroVolume = 5`
(`min = 0`, `max = 64`), decreasing from amplitude ratio `1`. -/
theorem log_nonzero_zero_volume_aborts_witness :
    newVolumeLog ⟨"p", "m", "log", 64, 0, 5⟩ 1 false = none := by
  refine log_nonzero_zero_volume_aborts _ 1 (by norm_num) ?_
  rw [toDB_one, mathCeil_zero]
  norm_num [volumeDenominations]

/-- C7: for every descriptor whose scale tag is neither `"linear"` nor
`"log"`, the `IncDec` dispatch hits the `panic("unknown scale")` branch:
it aborts (`none`) before computing or writing any value. -/
theorem incdec_unknown_scale_aborts (d : Device ℝ) (c : ℝ) (inc : Bool)
    (h1 : d.Scale ≠ scaleLinear) (h2 : d.Scale ≠ scaleLog) :
    IncDec d c inc = none := by
  simp [IncDec, h1, h2]

/-- Witness for C7: a descriptor carrying the unrecognised scale tag
`"pan"`. -/
theorem incdec_unknown_scale_aborts_witness :
    IncDec ⟨"p", "m", "pan", 0, -16, 0⟩ 1 true = none :=
  incdec_unknown_scale_aborts _ 1 true (by simp [scaleLinear]) (by simp [scaleLog])

/-- C8: for every amplitude ratio `r` in `(0, 1]`, the decibel conversion of
`newVolumeLog` followed by its inverse conversion reproduces `r` exactly
(the idealised real-number statement of the floating-point round trip). -/
theorem db_roundtrip (r : ℝ) (h0 : 0 < r) (h1 : r ≤ 1) : fromDB (toDB r) = r := by
  have hr2 : (0 : ℝ) < r ^ 2 := by positivity
  have h10 : (10 : ℝ) * Real.logb 10 (r ^ 2) / 10 = Real.logb 10 (r ^ 2) := by ring
  rw [fromDB, toDB, h10, Real.rpow_logb (by norm_num) (by norm_num) hr2,
    Real.sqrt_sq h0.le]

/-- Witness for C8 at `r = 1`. -/
theorem db_roundtrip_witness : fromDB (toDB 1) = 1 :=
  db_roundtrip 1 one_pos le_rfl

/-- C9: for every descriptor, every current value and both directions, when
`newVolumeLog` returns normally its result lies in `[0, 1]`: the snap path
returns `0` (or aborts), and every other path ends in a clamp of the
recovered amplitude ratio to `[0, 1]`. -/
theorem log_result_in_unit_interval (d : Device ℝ) (c : ℝ) (inc : Bool) (r : ℝ)
    (h : newVolumeLog d c inc = some r) : 0 ≤ r ∧ r ≤ 1 := by
  have hclamp : ∀ x : ℝ, 0 ≤ min (max x 0) 1 ∧ min (max x 0) 1 ≤ 1 :=
    fun x => ⟨le_min (le_max_right _ _) zero_le_one, min_le_right _ _⟩
  cases inc with
  | true =>
    simp only [newVolumeLog, Bool.true_eq_false, false_and, if_false, reduceIte] at h
    rw [Option.some_inj] at h
    rw [← h]
    exact hclamp _
  | false =>
    simp only [newVolumeLog, Bool.false_eq_true, if_false, eq_self_iff_true, true_and,
      reduceIte] at h
    split_ifs at h with hsnap hzero
    · push_neg at hzero
      rw [Option.some_inj] at h
      rw [← h, hzero]
      norm_num
    · rw [Option.some_inj] at h
      rw [← h]
      exact hclamp _

/-- Witness for C9: the `"computer"` device, increasing from amplitude ratio
`1`, returns exactly `1` (which lies in `[0, 1]`). -/
theorem log_result_in_unit_interval_witness :
    newVolumeLog computerD.toReal 1 true = some 1 ∧ (0 : ℝ) ≤ 1 ∧ (1 : ℝ) ≤ 1 := by
  have hev : newVolumeLog computerD.toReal 1 true = some 1 := by
    simp only [newVolumeLog, computerD, Device.toReal, toDB_one, mathCeil_zero,
      volumeDenominations]
    norm_num [min_def, max_def, fromDB]
  exact ⟨hev, log_result_in_unit_interval computerD.toReal 1 true 1 hev⟩

end Motu
